import Mathlib

/-
  Verification development for the jianying_srt plugin host runtime.

  The Python sources embedded here are
    subtitle_aligner/_internal/jianying_assistant/plugins/sdk.py
    subtitle_aligner/_internal/jianying_assistant/plugins/plugin_host.py

  The embedding is shallow: Python dicts become association lists,
  threading.Event objects become boolean cells keyed by an allocation
  counter, and the WebSocket callbacks become pure state-transition
  functions.  Time does not appear explicitly: the two outcomes of
  threading.Event.wait given a timeout (signalled in time / timed out)
  correspond to the two branches of completeCall on the event's flag.
-/

namespace JianyingPlugins

/-- Python/JSON-like values as they flow through the plugin host:
message payloads, manifest fields and RPC results. -/
inductive PyVal where
  | null
  | bool (b : Bool)
  | int (n : Int)
  | str (s : String)
  | list (xs : List PyVal)
  | dict (fields : List (String × PyVal))

/-- Python truthiness, as used by statements such as the pluginId check
in PluginSDK._on_message and the plugin-id check in _handle_load_plugin. -/
def PyVal.truthy : PyVal → Bool
  | .null => false
  | .bool b => b
  | .int n => n != 0
  | .str s => s != ""
  | .list xs => !xs.isEmpty
  | .dict fs => !fs.isEmpty

/-- Python equality restricted to hashable atoms (None, bool, int, str).
Python compares bool and int numerically (True == 1).  Containers are
never compared here: in the source the only cross-value comparison on
arbitrary manifest values is the seen_ids membership test, which raises
TypeError before comparing when the value is unhashable. -/
def pyEqAtom : PyVal → PyVal → Bool
  | .null, .null => true
  | .bool a, .bool b => a == b
  | .int a, .int b => a == b
  | .str a, .str b => a == b
  | .bool a, .int n => (if a then (1 : Int) else 0) == n
  | .int n, .bool a => n == (if a then (1 : Int) else 0)
  | _, _ => false

/-- Membership of an atom in a list of previously seen ids
(models the seen_ids set of _handle_scan_plugins). -/
def pyMemAtom (v : PyVal) (seen : List PyVal) : Bool :=
  seen.any (fun w => pyEqAtom v w)

/-- Association-list lookup, modelling Python dict indexing/get. -/
def alookup {κ α : Type} [DecidableEq κ] (k : κ) : List (κ × α) → Option α
  | [] => Option.none
  | e :: rest => if e.1 = k then some e.2 else alookup k rest

/-- Association-list write, modelling Python dict assignment: an existing
key keeps its position and gets the new value, a new key is appended. -/
def aset {κ α : Type} [DecidableEq κ] (k : κ) (v : α) : List (κ × α) → List (κ × α)
  | [] => [(k, v)]
  | e :: rest => if e.1 = k then (k, v) :: rest else e :: aset k v rest

/-- Association-list delete, modelling Python dict del / pop. -/
def adel {κ α : Type} [DecidableEq κ] (k : κ) (l : List (κ × α)) : List (κ × α) :=
  l.filter (fun e => decide (e.1 ≠ k))

/-- Set the event cell with the given token to true
(models threading.Event.set on the event allocated under that token). -/
def esetTrue (t : Nat) (es : List (Nat × Bool)) : List (Nat × Bool) :=
  es.map (fun e => if e.1 = t then (t, true) else e)

/-- The default of the current_plugin_id ContextVar (sdk.py line 13). -/
def currentPluginIdDefault : String := "host"

/-- A registered handler, as stored in PluginSDK.plugin_handlers.
isCoroutine is inspect.iscoroutinefunction(handler), which decides how
the dispatcher executes it.  run's String argument is the value of
current_plugin_id.get() as observed in the thread or task in which the
handler body actually executes; the result is the handler's return
value or the message of the exception it raised. -/
structure Handler where
  isCoroutine : Bool
  run : String → PyVal → Except String PyVal

/-- The current_plugin_id value the handler body observes.  A coroutine
handler is awaited inside the wrapper coroutine, whose context carries
the wrapper's set, so it observes the target plugin id.  A non-coroutine
handler is executed via loop.run_in_executor in a worker thread whose
context never had the variable set, so current_plugin_id.get() falls
back to the ContextVar's default "host" — the wrapper's set does not
propagate into the executor. -/
def observedIdentity (h : Handler) (target : String) : String :=
  if h.isCoroutine then target else currentPluginIdDefault

/-- The mutable state of a PluginSDK instance (sdk.py). -/
structure SDKState where
  /-- self.ws is not None -/
  wsConnected : Bool
  /-- self._is_running -/
  isRunning : Bool
  /-- self.pending_requests: message id → token of the caller's Event -/
  pending : List (String × Nat)
  /-- the Event objects, keyed by allocation token; the Bool is the flag -/
  events : List (Nat × Bool)
  /-- allocation counter for fresh Event tokens -/
  nextEvent : Nat
  /-- self.responses -/
  responses : List (String × PyVal)
  /-- self.plugin_handlers: plugin id → event name → handler -/
  pluginHandlers : List (String × List (String × Handler))
  /-- self.ext_service_instances (instances modelled as values) -/
  extServices : List (String × PyVal)
  /-- the current_plugin_id context variable (default "host") -/
  currentPluginId : String

/-- A connected SDK with empty tables. -/
def initSDK : SDKState :=
  { wsConnected := true, isRunning := true, pending := [], events := [],
    nextEvent := 0, responses := [], pluginHandlers := [], extServices := [],
    currentPluginId := "host" }

/-- First half of PluginSDK.call_app (sdk.py lines 231-246): allocate a
fresh Event, register it in pending_requests under the new message id.
Returns the token of the caller's Event. -/
def issueCall (s : SDKState) (msgId : String) : SDKState × Nat :=
  let tok := s.nextEvent
  ({ s with pending := aset msgId tok s.pending,
            events := (tok, false) :: s.events,
            nextEvent := tok + 1 }, tok)

/-- The relevant content of an inbound response frame: the value of its
"error" key when present, and data.get("result"). -/
structure RespData where
  hasError : Option PyVal
  result : Option PyVal

/-- What the response branch of _on_message stores into self.responses:
a dict wrapping the error when "error" is in data, otherwise
data.get("result") (None when the key is absent). -/
def storedOf (d : RespData) : PyVal :=
  match d.hasError with
  | some e => .dict [("error", e)]
  | none => d.result.getD .null

/-- Response branch of PluginSDK._on_message (sdk.py lines 132-141):
if the frame's id is a pending request, store the result-or-error and
set that request's Event; otherwise the frame is ignored. -/
def onResponse (s : SDKState) (msgId : String) (d : RespData) : SDKState :=
  match alookup msgId s.pending with
  | some tok =>
      { s with responses := aset msgId (storedOf d) s.responses,
               events := esetTrue tok s.events }
  | none => s

/-- isinstance(result, dict) and "error" in result (sdk.py line 252). -/
def isErrorDict : PyVal → Bool
  | .dict fs => (alookup "error" fs).isSome
  | _ => false

/-- result["error"].get("message", "Unknown error") as rendered into the
App Error exception (sdk.py line 253). -/
def errMessageOf : PyVal → PyVal
  | .dict fs =>
      match alookup "error" fs with
      | some (.dict efs) => (alookup "message" efs).getD (.str "Unknown error")
      | _ => .str "Unknown error"
  | _ => .str "Unknown error"

/-- The ways PluginSDK.call_app can fail after the send. -/
inductive CallFailure where
  | timeoutFail
  | keyFail
  | appFail (msg : PyVal)

/-- Second half of PluginSDK.call_app (sdk.py lines 248-258): the caller
wakes from event.wait.  If its Event was set, pop the stored response
(KeyError when absent, as after a close cleared the table), delete the
pending entry, and either return the result or raise the App Error when
the stored value is an error-shaped dict.  If the Event was not set the
wait timed out: delete the pending entry and raise TimeoutError. -/
def completeCall (s : SDKState) (msgId : String) (tok : Nat) :
    Except CallFailure PyVal × SDKState :=
  match alookup tok s.events with
  | some true =>
      match alookup msgId s.responses with
      | Option.none => (.error .keyFail, s)
      | some r =>
          let s1 := { s with responses := adel msgId s.responses }
          match alookup msgId s1.pending with
          | Option.none => (.error .keyFail, s1)
          | some _ =>
              let s2 := { s1 with pending := adel msgId s1.pending }
              if isErrorDict r then (.error (.appFail (errMessageOf r)), s2)
              else (.ok r, s2)
  | _ =>
      match alookup msgId s.pending with
      | Option.none => (.error .keyFail, s)
      | some _ => (.error .timeoutFail, { s with pending := adel msgId s.pending })

/-- PluginSDK._on_close (sdk.py lines 114-120): mark not running, set
every pending request's Event, clear pending_requests and responses. -/
def onClose (s : SDKState) : SDKState :=
  { s with isRunning := false,
           events := s.pending.foldl (fun es e => esetTrue e.2 es) s.events,
           pending := [],
           responses := [] }

/-- An outbound frame produced by the request dispatcher; jsonrpc "2.0"
is implicit on every frame. -/
inductive OutFrame where
  | result (id : PyVal) (r : PyVal)
  | rpcError (id : PyVal) (code : Int) (message : String)

/-- params.get("pluginId") when params is a dict (isinstance check). -/
def pluginIdParam (params : PyVal) : Option PyVal :=
  match params with
  | .dict fs => alookup "pluginId" fs
  | _ => Option.none

/-- Handler lookup of PluginSDK._dispatch_request (sdk.py lines 158-165):
the host table is consulted first; only when it has no entry for the
method and params carry a truthy pluginId that is a key of
plugin_handlers is that plugin's table consulted.  Returns the handler
together with the plugin id it will run as. -/
def lookupRequestHandler (s : SDKState) (method : String) (params : PyVal) :
    Option (Handler × String) :=
  match (alookup "host" s.pluginHandlers).bind (fun tbl => alookup method tbl) with
  | some h => some (h, "host")
  | none =>
      match pluginIdParam params with
      | some pv =>
          if pv.truthy then
            match pv with
            | .str p =>
                match alookup p s.pluginHandlers with
                | some tbl => (alookup method tbl).map (fun h => (h, p))
                | none => Option.none
            | _ => Option.none
          else Option.none
      | none => Option.none

/-- The guard "if self.ws and self._is_running" in front of every send. -/
def sendIfRunning (s : SDKState) (f : OutFrame) : Option OutFrame :=
  if s.wsConnected && s.isRunning then some f else Option.none

/-- Result of delivering one inbound request frame. -/
structure DispatchOut where
  /-- the frame handed to ws.send, if the guard allowed it -/
  sent : Option OutFrame
  /-- the plugin id the handler body ran as, when a handler ran -/
  ranAs : Option String
  /-- the identity value the handler body observed, when a handler ran -/
  observedId : Option String
  state : SDKState

/-- PluginSDK._dispatch_request (sdk.py lines 156-205).  The wrapper
coroutine sets current_plugin_id to the handler's owner and resets it in
the finally clause, also when the handler raises.  A coroutine handler
is awaited in the wrapper and so observes that set; a non-coroutine
handler is run via loop.run_in_executor and observes the ContextVar
default instead (see observedIdentity).  Success is answered with a
result frame, a raised exception with an error frame of code -32603
carrying str(e).  With no handler found an error frame of code -32601
is sent and nothing is raised locally. -/
def dispatchRequest (s : SDKState) (msgId : PyVal) (method : String) (params : PyVal) :
    DispatchOut :=
  match lookupRequestHandler s method params with
  | some ht =>
      let prev := s.currentPluginId
      let sIn := { s with currentPluginId := ht.2 }
      let observed := observedIdentity ht.1 sIn.currentPluginId
      let frame :=
        match ht.1.run observed params with
        | .ok r => OutFrame.result msgId r
        | .error e => OutFrame.rpcError msgId (-32603) e
      { sent := sendIfRunning s frame, ranAs := some ht.2,
        observedId := some observed,
        state := { sIn with currentPluginId := prev } }
  | none =>
      { sent := sendIfRunning s (OutFrame.rpcError msgId (-32601)
          ("Method not found: " ++ method)),
        ranAs := Option.none, observedId := Option.none, state := s }

/-- Result of delivering one notification to one plugin. -/
structure EventOut where
  ranAs : Option String
  observedId : Option String
  /-- the swallowed exception message, when the handler raised -/
  raised : Option String
  state : SDKState

/-- PluginSDK._dispatch_event (sdk.py lines 207-223): run the plugin's
handler for the event, if any; the wrapper coroutine sets
current_plugin_id to the plugin and resets it afterwards, but as in
dispatchRequest only a coroutine handler observes that set, while a
non-coroutine handler runs in the executor and observes the ContextVar
default; a raised exception is logged and swallowed. -/
def dispatchEvent (s : SDKState) (pid : String) (eventName : String) (params : PyVal) :
    EventOut :=
  match alookup eventName ((alookup pid s.pluginHandlers).getD []) with
  | some h =>
      let prev := s.currentPluginId
      let sIn := { s with currentPluginId := pid }
      let observed := observedIdentity h sIn.currentPluginId
      let res := h.run observed params
      { ranAs := some pid, observedId := some observed,
        raised := match res with | .ok _ => Option.none | .error e => some e,
        state := { sIn with currentPluginId := prev } }
  | none => { ranAs := Option.none, observedId := Option.none,
              raised := Option.none, state := s }

/-- Broadcast arm of the notification branch of _on_message: deliver to
every plugin currently in plugin_handlers; plugins without a handler for
the event contribute nothing. -/
def broadcastNotification (s : SDKState) (method : String) (params : PyVal) :
    List String × SDKState :=
  s.pluginHandlers.foldl
    (fun acc e =>
      let out := dispatchEvent acc.2 e.1 method params
      (acc.1 ++ (match out.ranAs with | some t => [t] | none => []), out.state))
    ([], s)

/-- Notification branch of PluginSDK._on_message (sdk.py lines 142-151):
a truthy pluginId in params targets exactly that plugin (dropped when it
has no handler table); otherwise the notification is broadcast.  Returns
the plugin ids whose handlers ran. -/
def onNotification (s : SDKState) (method : String) (params : PyVal) :
    List String × SDKState :=
  match pluginIdParam params with
  | some pv =>
      if pv.truthy then
        match pv with
        | .str p =>
            if (alookup p s.pluginHandlers).isSome then
              let out := dispatchEvent s p method params
              ((match out.ranAs with | some t => [t] | none => []), out.state)
            else ([], s)
        | _ => ([], s)
      else broadcastNotification s method params
  | none => broadcastNotification s method params

/-- A PluginContext (sdk.py class PluginContext), restricted to the
fields the host lifecycle touches.  A teardown callback is a thunk whose
result records whether the callback raised. -/
structure Ctx where
  pluginId : String
  /-- self._is_running -/
  running : Bool
  /-- self._is_initializing -/
  settingUp : Bool
  /-- self._teardown_callbacks -/
  teardownCallbacks : List (Unit → Except String Unit)
  /-- liveness flags of self._managed_threads -/
  managedThreads : List Bool

/-- What executing a plugin's main.py provides: whether the module ends
up with a setup attribute, and the behaviour of setup(context).  The
String argument is the current_plugin_id value observed while setup
runs. -/
structure ModuleCode where
  hasSetup : Bool
  setupRun : String → Except String Unit

/-- One item of the plugins root directory as the host sees it. -/
structure DirEntry where
  name : String
  isDir : Bool
  /-- manifest.json: missing, unreadable/unparseable, or parsed fields -/
  manifest : Option (Option (List (String × PyVal)))
  /-- main.py: present with this behaviour, or absent -/
  mainPy : Option ModuleCode

/-- The mutable state of a PluginHost instance (plugin_host.py) together
with its embedded PluginSDK. -/
structure HostState where
  sdk : SDKState
  /-- self.plugins: id → context -/
  plugins : List (String × Ctx)
  /-- sys.modules restricted to plugin modules: module name → module
      object identity token -/
  sysModules : List (String × Nat)
  /-- allocation counter for fresh module object identities -/
  nextModule : Nat

/-- A host connected with empty tables. -/
def initHost : HostState :=
  { sdk := initSDK, plugins := [], sysModules := [], nextModule := 0 }

/-- manifest.get('id', item): a parsed manifest's id field, defaulting to
the folder name (plugin_host.py line 91). -/
def effectiveId (m : List (String × PyVal)) (folder : String) : PyVal :=
  (alookup "id" m).getD (.str folder)

/-- One iteration of the scan loop of PluginHost._handle_scan_plugins
(plugin_host.py lines 79-110).  The accumulator carries the list built
so far and seen_ids.  Non-directories, venv and __pycache__ are skipped;
so are entries without a readable manifest; an unhashable id raises in
the membership test and is caught by the surrounding except; a seen id
is skipped with a warning; otherwise folderName and id are written into
the manifest and it is appended. -/
def scanStep (acc : List (List (String × PyVal)) × List PyVal) (e : DirEntry) :
    List (List (String × PyVal)) × List PyVal :=
  if !e.isDir || e.name == "venv" || e.name == "__pycache__" then acc
  else
    match e.manifest with
    | Option.none => acc
    | some Option.none => acc
    | some (some m) =>
        let pid := effectiveId m e.name
        match pid with
        | .list _ => acc
        | .dict _ => acc
        | _ =>
            if pyMemAtom pid acc.2 then acc
            else
              let m1 := aset "folderName" (.str e.name) m
              let m2 := aset "id" pid m1
              (acc.1 ++ [m2], pid :: acc.2)

/-- PluginHost._handle_scan_plugins: fold the scan loop over the entries
of the plugins root, in scan order, and return the aggregated list. -/
def scanPlugins (entries : List DirEntry) : List (List (String × PyVal)) :=
  (entries.foldl scanStep ([], [])).1

/-- Whether a directory entry's manifest declares exactly the requested
id (manifest.get('id') == plugin_id in _find_plugin_dir). -/
def manifestIdMatches (e : DirEntry) (pid : String) : Bool :=
  match e.manifest with
  | some (some m) =>
      match alookup "id" m with
      | some (.str s) => s == pid
      | _ => false
  | _ => false

/-- PluginHost._find_plugin_dir (plugin_host.py lines 187-214): first the
deep scan matching the manifest id, then the fallback matching the
folder name directly. -/
def findPluginDir (entries : List DirEntry) (pid : String) : Option DirEntry :=
  match entries.find? (fun e =>
      e.isDir && e.name != "venv" && e.name != "__pycache__" &&
      manifestIdMatches e pid) with
  | some e => some e
  | none => entries.find? (fun e => e.name == pid && e.isDir)

/-- module_name = "plugin_" + plugin_id.replace(' ', '_').replace('-', '_')
(plugin_host.py line 149). -/
def moduleNameFor (pid : String) : String :=
  "plugin_" ++ ((pid.replace " " "_").replace "-" "_")

/-- Result of PluginHost._handle_load_plugin. -/
structure LoadOut where
  /-- the returned dict: a status-ok or an error field -/
  result : PyVal
  /-- the identity setup(context) observed, when setup ran -/
  setupRanAs : Option String
  host : HostState

/-- PluginHost._handle_load_plugin (plugin_host.py lines 117-185).
A missing/falsy id is answered before the identity slot is touched.
Otherwise current_plugin_id is set to the plugin id for the whole load
and reset in the finally clause on every path.  Resolution, entry-point
and setup failures are caught and become a structured error dict; the
error messages keep the source's prefixes (the directory-listing
diagnostics appended in the source depend on absolute filesystem paths
and are elided).  An already-known module name reuses the existing
module object (hot reload); a new name allocates a fresh module object
and registers it in sys.modules before setup is attempted. -/
def handleLoadPlugin (entries : List DirEntry) (h : HostState) (pidParam : Option String) :
    LoadOut :=
  match pidParam with
  | Option.none =>
      { result := .dict [("error", .str "Missing plugin id")],
        setupRanAs := Option.none, host := h }
  | some pid =>
      if pid = "" then
        { result := .dict [("error", .str "Missing plugin id")],
          setupRanAs := Option.none, host := h }
      else
        let prev := h.sdk.currentPluginId
        let h0 := { h with sdk := { h.sdk with currentPluginId := pid } }
        let out : LoadOut :=
          match findPluginDir entries pid with
          | Option.none =>
              { result := .dict [("error",
                  .str ("Plugin directory not found for ID: " ++ pid))],
                setupRanAs := Option.none, host := h0 }
          | some d =>
              match d.mainPy with
              | Option.none =>
                  { result := .dict [("error",
                      .str ("Plugin entry point \x27main.py\x27 not found in: " ++ d.name))],
                    setupRanAs := Option.none, host := h0 }
              | some code =>
                  let mname := moduleNameFor pid
                  let h1 :=
                    match alookup mname h0.sysModules with
                    | some _ => h0
                    | Option.none =>
                        { h0 with sysModules := aset mname h0.nextModule h0.sysModules,
                                  nextModule := h0.nextModule + 1 }
                  if code.hasSetup then
                    let observed := h1.sdk.currentPluginId
                    match code.setupRun observed with
                    | .ok _ =>
                        let ctx : Ctx :=
                          { pluginId := pid, running := true, settingUp := false,
                            teardownCallbacks := [], managedThreads := [] }
                        { result := .dict [("status", .str "ok")],
                          setupRanAs := some observed,
                          host := { h1 with plugins := aset pid ctx h1.plugins } }
                    | .error e =>
                        { result := .dict [("error", .str e)],
                          setupRanAs := some observed, host := h1 }
                  else
                    { result := .dict [("error",
                        .str ("Plugin " ++ pid ++ " has no \x27setup(api)\x27 function."))],
                      setupRanAs := Option.none, host := h1 }
        { out with host := { out.host with
            sdk := { out.host.sdk with currentPluginId := prev } } }

/-- PluginContext._trigger_teardown (sdk.py lines 308-325): flip the
running flag, drop the plugin's extension-service entry, invoke every
teardown callback with each failure logged and swallowed, filter the
managed-thread records down to the still-alive ones.  Returns the new
SDK state, the new context and the per-callback outcomes. -/
def triggerTeardown (sdk : SDKState) (c : Ctx) :
    SDKState × Ctx × List (Except String Unit) :=
  let sdk1 := { sdk with extServices := adel c.pluginId sdk.extServices }
  let outcomes := c.teardownCallbacks.map (fun cb => cb ())
  let c1 := { c with running := false,
                     managedThreads := c.managedThreads.filter (fun alive => alive) }
  (sdk1, c1, outcomes)

/-- PluginHost._handle_unload_plugin (plugin_host.py lines 216-234): for
a loaded id run the teardown, remove the plugin's whole handler table
(unregister_plugin), drop the record and answer status ok; any other id
is answered status not_found with no state change.  The third component
records the teardown-callback outcomes. -/
def handleUnloadPlugin (h : HostState) (pidParam : Option String) :
    PyVal × HostState × List (Except String Unit) :=
  match pidParam with
  | some pid =>
      match alookup pid h.plugins with
      | some c =>
          let td := triggerTeardown h.sdk c
          let sdk2 := { td.1 with pluginHandlers := adel pid td.1.pluginHandlers }
          (.dict [("status", .str "ok")],
           { h with sdk := sdk2, plugins := adel pid h.plugins },
           td.2.2)
      | Option.none => (.dict [("status", .str "not_found")], h, [])
  | Option.none => (.dict [("status", .str "not_found")], h, [])

/-- A success response frame carrying a result (no "error" key). -/
def respOk (r : PyVal) : RespData :=
  { hasError := Option.none, result := some r }

/-! Sample values used to instantiate the theorems below. -/

/-- A coroutine handler that returns its params unchanged. -/
def hEcho : Handler := { isCoroutine := true, run := fun _ p => .ok p }

/-- A synchronous handler that raises. -/
def hRaise : Handler := { isCoroutine := false, run := fun _ _ => .error "boom" }

/-- A synchronous handler that returns the current_plugin_id value its
body observes (the model of a handler calling current_plugin_id.get()). -/
def hSyncProbe : Handler :=
  { isCoroutine := false, run := fun ident _ => .ok (.str ident) }

/-- An SDK where plugin "plug" registered the synchronous handler
hSyncProbe for event "work". -/
def sdkSyncPlug : SDKState :=
  { initSDK with pluginHandlers := [("plug", [("work", hSyncProbe)])] }

/-- An SDK with one pending request "a" whose event is token 0. -/
def sdkOnePending : SDKState :=
  { initSDK with pending := [("a", 0)], events := [(0, false)], nextEvent := 1 }

/-- An SDK with a host-level handler for "ping" and a plugin "plug"
holding handlers for "poke" (succeeds) and "bad" (raises). -/
def sdkWithHandlers : SDKState :=
  { initSDK with pluginHandlers :=
      [("host", [("ping", hEcho)]),
       ("plug", [("poke", hEcho), ("bad", hRaise)])] }

/-- A main.py whose setup(context) succeeds. -/
def okModule : ModuleCode := { hasSetup := true, setupRun := fun _ => .ok () }

/-- A plugins root with one plugin: folder "expdir" declaring id "exp". -/
def entriesExp : List DirEntry :=
  [{ name := "expdir", isDir := true,
     manifest := some (some [("id", .str "exp")]), mainPy := some okModule }]

/-- The discovery scenario of the spec: folder subtitle_exporter whose
manifest declares id exporter. -/
def entriesExporter : List DirEntry :=
  [{ name := "subtitle_exporter", isDir := true,
     manifest := some (some [("id", .str "exporter")]), mainPy := some okModule }]

/-- Two folders declaring the same id "dup", in scan order. -/
def entriesDup : List DirEntry :=
  [{ name := "first_dir", isDir := true,
     manifest := some (some [("id", .str "dup"), ("name", .str "A")]),
     mainPy := Option.none },
   { name := "second_dir", isDir := true,
     manifest := some (some [("id", .str "dup"), ("name", .str "B")]),
     mainPy := Option.none }]

/-- A folder whose manifest parses but has no id field. -/
def entriesNoId : List DirEntry :=
  [{ name := "anon_dir", isDir := true,
     manifest := some (some [("name", .str "Anon")]), mainPy := Option.none }]

/-- A later folder explicitly declaring the id that entriesNoId gets by
defaulting to its folder name. -/
def entriesNoIdClash : List DirEntry :=
  [{ name := "other_dir", isDir := true,
     manifest := some (some [("id", .str "anon_dir")]), mainPy := Option.none }]

/-- A context for plugin "plug" with one raising and one succeeding
teardown callback. -/
def ctxPlug : Ctx :=
  { pluginId := "plug", running := true, settingUp := false,
    teardownCallbacks := [fun _ => .error "teardown boom", fun _ => .ok ()],
    managedThreads := [] }

/-- A host with plugin "plug" loaded: a record, a handler table and an
extension-service entry. -/
def hostWithPlug : HostState :=
  { sdk := { sdkWithHandlers with extServices := [("plug", .str "svc")] },
    plugins := [("plug", ctxPlug)], sysModules := [], nextModule := 0 }

/-! Association-list and event-cell lemmas. -/

theorem alookup_aset_self {κ α : Type} [DecidableEq κ] (k : κ) (v : α)
    (l : List (κ × α)) : alookup k (aset k v l) = some v := by
  induction l with
  | nil => simp [aset, alookup]
  | cons e rest ih =>
      by_cases h : e.1 = k
      · simp [aset, h, alookup]
      · simp [aset, h, alookup, ih]

theorem alookup_aset_ne {κ α : Type} [DecidableEq κ] {k k' : κ} (v : α)
    (l : List (κ × α)) (h : k' ≠ k) :
    alookup k' (aset k v l) = alookup k' l := by
  have h2 : ¬(k = k') := fun hh => h hh.symm
  induction l with
  | nil => simp [aset, alookup, h2]
  | cons e rest ih =>
      by_cases he : e.1 = k
      · have h3 : ¬(e.1 = k') := by rw [he]; exact h2
        simp [aset, he, alookup, h2, h3]
      · simp [aset, he, alookup, ih]

theorem alookup_adel_self {κ α : Type} [DecidableEq κ] (k : κ)
    (l : List (κ × α)) : alookup k (adel k l) = Option.none := by
  induction l with
  | nil => simp [adel, alookup]
  | cons e rest ih =>
      by_cases h : e.1 = k
      · simpa [adel, h] using ih
      · simpa [adel, alookup, h] using ih

theorem alookup_adel_ne {κ α : Type} [DecidableEq κ] {k k' : κ}
    (l : List (κ × α)) (h : k' ≠ k) :
    alookup k' (adel k l) = alookup k' l := by
  have h2 : ¬(k = k') := fun hh => h hh.symm
  induction l with
  | nil => simp [adel, alookup]
  | cons e rest ih =>
      by_cases he : e.1 = k
      · have h3 : ¬(e.1 = k') := by rw [he]; exact h2
        simpa [adel, List.filter_cons, he, alookup, h2, h3] using ih
      · by_cases he' : e.1 = k'
        · simp [adel, List.filter_cons, he, alookup, he', h]
        · simpa [adel, List.filter_cons, he, alookup, he'] using ih

theorem alookup_esetTrue_self (t : Nat) (es : List (Nat × Bool)) :
    alookup t (esetTrue t es) = (alookup t es).map (fun _ => true) := by
  induction es with
  | nil => simp [esetTrue, alookup]
  | cons e rest ih =>
      by_cases h : e.1 = t
      · simp [esetTrue, h, alookup]
      · simpa [esetTrue, alookup, h] using ih

theorem alookup_esetTrue_ne {t t' : Nat} (es : List (Nat × Bool)) (h : t' ≠ t) :
    alookup t' (esetTrue t es) = alookup t' es := by
  have h2 : ¬(t = t') := fun hh => h hh.symm
  induction es with
  | nil => simp [esetTrue, alookup]
  | cons e rest ih =>
      by_cases he : e.1 = t
      · have h3 : ¬(e.1 = t') := by rw [he]; exact h2
        simpa [esetTrue, he, alookup, h2, h3] using ih
      · by_cases he' : e.1 = t'
        · simp [esetTrue, he, alookup, he', h, h2]
        · simpa [esetTrue, alookup, he, he'] using ih

theorem foldl_esetTrue_not_mem (ps : List (String × Nat)) (es : List (Nat × Bool))
    (t : Nat) (h : t ∉ ps.map Prod.snd) :
    alookup t (ps.foldl (fun es e => esetTrue e.2 es) es) = alookup t es := by
  induction ps generalizing es with
  | nil => rfl
  | cons p ps ih =>
      have hne : t ≠ p.2 := by
        intro hh
        exact h (by simp [hh])
      have hrest : t ∉ ps.map Prod.snd := by
        intro hh
        exact h (by simp [hh])
      simpa [List.foldl, alookup_esetTrue_ne es hne] using
        (by simpa [alookup_esetTrue_ne es hne] using ih (esetTrue p.2 es) hrest)

theorem foldl_esetTrue_mem (ps : List (String × Nat)) (es : List (Nat × Bool))
    (t : Nat) (h : t ∈ ps.map Prod.snd) :
    alookup t (ps.foldl (fun es e => esetTrue e.2 es) es) =
      (alookup t es).map (fun _ => true) := by
  induction ps generalizing es with
  | nil => simp at h
  | cons p ps ih =>
      by_cases hm : t ∈ ps.map Prod.snd
      · have hstep := ih (esetTrue p.2 es) hm
        by_cases ht : t = p.2
        · rw [List.foldl_cons, hstep, ht, alookup_esetTrue_self]
          cases alookup p.2 es <;> rfl
        · rw [List.foldl_cons, hstep, alookup_esetTrue_ne es ht]
      · have ht : t = p.2 := by
          rw [List.map_cons] at h
          rcases List.mem_cons.mp h with h1 | h1
          · exact h1
          · exact absurd h1 hm
        rw [List.foldl_cons, foldl_esetTrue_not_mem ps _ t hm, ht,
          alookup_esetTrue_self]

theorem alookup_adel_none {κ α : Type} [DecidableEq κ] {k k' : κ}
    {l : List (κ × α)} (h : alookup k' l = Option.none) :
    alookup k' (adel k l) = Option.none := by
  by_cases hk : k' = k
  · rw [hk]; exact alookup_adel_self k l
  · rw [alookup_adel_ne l hk]; exact h

theorem onResponse_pending (s : SDKState) (mid : String) (d : RespData) :
    (onResponse s mid d).pending = s.pending := by
  unfold onResponse
  split <;> rfl

theorem completeCall_pending_none (s : SDKState) (mid : String) (tok : Nat)
    (id' : String) (h : alookup id' s.pending = Option.none) :
    alookup id' (completeCall s mid tok).2.pending = Option.none := by
  unfold completeCall
  cases he : alookup tok s.events with
  | none =>
      cases hp : alookup mid s.pending with
      | none => simpa using h
      | some t => simpa using alookup_adel_none h
  | some bb =>
      cases bb with
      | false =>
          cases hp : alookup mid s.pending with
          | none => simpa using h
          | some t => simpa using alookup_adel_none h
      | true =>
          cases hr : alookup mid s.responses with
          | none => simpa using h
          | some r =>
              cases hp : alookup mid s.pending with
              | none => simpa [hp] using h
              | some t =>
                  by_cases hi : isErrorDict r = true
                  · simpa [hp, hi] using alookup_adel_none h
                  · simpa [hp, hi] using alookup_adel_none h

/-! Claim theorems. -/

/-- C1: delivering the response frame whose id matches a pending call
stores the response's result into that call's slot and sets exactly that
call's event, leaving every other pending entry, result slot and event
unchanged; and two concurrent calls with distinct correlation ids, the
second answered before the first, each resolve to their own result
("valid" results, i.e. results that are not error-shaped dicts, since
call_app re-raises error-shaped results as App Error). -/
theorem c1_response_correlation
    (s : SDKState) (idA idB : String) (rA rB : PyVal)
    (hne : idA ≠ idB)
    (hpA : alookup idA s.pending = Option.none)
    (hpB : alookup idB s.pending = Option.none)
    (hrA : alookup idA s.responses = Option.none)
    (hrB : alookup idB s.responses = Option.none)
    (heA : isErrorDict rA = false)
    (heB : isErrorDict rB = false) :
    (∀ (s0 : SDKState) (mid : String) (tok : Nat) (d : RespData),
        alookup mid s0.pending = some tok →
        alookup mid (onResponse s0 mid d).responses = some (storedOf d)
        ∧ alookup tok (onResponse s0 mid d).events
            = (alookup tok s0.events).map (fun _ => true)
        ∧ (onResponse s0 mid d).pending = s0.pending
        ∧ (∀ id', id' ≠ mid →
            alookup id' (onResponse s0 mid d).responses = alookup id' s0.responses)
        ∧ (∀ t', t' ≠ tok →
            alookup t' (onResponse s0 mid d).events = alookup t' s0.events))
    ∧
    ((completeCall (onResponse (onResponse (issueCall (issueCall s idA).1 idB).1
        idB (respOk rB)) idA (respOk rA)) idA (issueCall s idA).2).1 = .ok rA
     ∧ (completeCall (completeCall (onResponse (onResponse
          (issueCall (issueCall s idA).1 idB).1 idB (respOk rB)) idA (respOk rA))
          idA (issueCall s idA).2).2 idB (issueCall (issueCall s idA).1 idB).2).1
        = .ok rB
     ∧ alookup idA (onResponse (issueCall (issueCall s idA).1 idB).1
          idB (respOk rB)).responses = Option.none
     ∧ alookup (issueCall s idA).2 (onResponse (issueCall (issueCall s idA).1 idB).1
          idB (respOk rB)).events = some false) := by
  constructor
  · intro s0 mid tok d hp
    have hred : onResponse s0 mid d
        = { s0 with responses := aset mid (storedOf d) s0.responses,
                    events := esetTrue tok s0.events } := by
      simp only [onResponse, hp]
    rw [hred]
    exact ⟨alookup_aset_self .., alookup_esetTrue_self .., rfl,
      fun id' hid => alookup_aset_ne _ _ hid,
      fun t' ht => alookup_esetTrue_ne _ ht⟩
  · have hAB : idB ≠ idA := fun h => hne h.symm
    have hnn : s.nextEvent ≠ s.nextEvent + 1 := Nat.ne_of_lt (Nat.lt_succ_self _)
    have hnn' : s.nextEvent + 1 ≠ s.nextEvent := fun h => hnn h.symm
    refine ⟨?_, ?_, ?_, ?_⟩ <;>
      simp [issueCall, onResponse, completeCall, respOk, storedOf,
        alookup, alookup_aset_self, alookup_aset_ne, alookup_esetTrue_self,
        alookup_esetTrue_ne, alookup_adel_self, alookup_adel_ne,
        hne, hAB, hnn, hnn', heA, heB, hrA, hrB, hpA, hpB]

/-- C2: a call that times out raises TimeoutError and its pending entry
is removed; a response with that correlation id delivered afterwards is
ignored: it leaves the whole SDK state unchanged, so it mutates no
pending entry and sets no caller's event. -/
theorem c2_timeout_removes_pending
    (s : SDKState) (idA : String) (d : RespData) :
    (completeCall (issueCall s idA).1 idA (issueCall s idA).2).1
        = .error .timeoutFail
    ∧ alookup idA (completeCall (issueCall s idA).1 idA
        (issueCall s idA).2).2.pending = Option.none
    ∧ onResponse (completeCall (issueCall s idA).1 idA
        (issueCall s idA).2).2 idA d
      = (completeCall (issueCall s idA).1 idA (issueCall s idA).2).2 := by
  have hev : alookup (issueCall s idA).2 (issueCall s idA).1.events = some false := by
    simp [issueCall, alookup]
  have hp : alookup idA (issueCall s idA).1.pending = some (issueCall s idA).2 := by
    simp only [issueCall]
    exact alookup_aset_self ..
  have hgone :
      alookup idA (completeCall (issueCall s idA).1 idA
        (issueCall s idA).2).2.pending = Option.none := by
    simp only [completeCall, hev, hp]
    exact alookup_adel_self ..
  refine ⟨?_, hgone, ?_⟩
  · simp only [completeCall, hev, hp]
  · simp only [onResponse, hgone]

/-- C3 counterexample: the claim says a PendingRequest is removed either
by its own matching response or by forced completion on connection
close, but the code has a third removal path: timeout.  Concretely,
issue call "a" on a fresh SDK and let it time out: the entry existed
after the issue and is gone afterwards, yet no response was ever stored
(responses stayed empty) and no close happened (the connection is still
running). -/
theorem c3_removed_by_timeout_counterexample :
    alookup "a" (issueCall initSDK "a").1.pending = some (issueCall initSDK "a").2
    ∧ (completeCall (issueCall initSDK "a").1 "a" (issueCall initSDK "a").2).1
        = Except.error CallFailure.timeoutFail
    ∧ (completeCall (issueCall initSDK "a").1 "a"
        (issueCall initSDK "a").2).2.isRunning = true
    ∧ (completeCall (issueCall initSDK "a").1 "a"
        (issueCall initSDK "a").2).2.responses = []
    ∧ alookup "a" (completeCall (issueCall initSDK "a").1 "a"
        (issueCall initSDK "a").2).2.pending = Option.none :=
  ⟨rfl, rfl, rfl, rfl, rfl⟩

/-- C3 (amended): every PendingRequest entry is created when its call is
issued (with an unset event), and is removed exactly once — by its own
matching response being consumed, by its own timeout expiry, or by
forced completion on connection close; on close every outstanding entry
is force-completed (its event is set and both tables are cleared) so the
blocked caller unblocks with a failure rather than waiting forever, and
the connection is marked not-running.  No operation other than issuing a
call ever creates a pending entry. -/
theorem c3_pending_lifecycle
    (s : SDKState) (msgId : String) (tok : Nat) (b : Bool) (d : RespData)
    (hmem : (msgId, tok) ∈ s.pending)
    (hev : alookup tok s.events = some b) :
    (∀ (s0 : SDKState) (mid : String),
        alookup mid (issueCall s0 mid).1.pending = some (issueCall s0 mid).2
        ∧ alookup (issueCall s0 mid).2 (issueCall s0 mid).1.events = some false)
    ∧ (onClose s).pending = [] ∧ (onClose s).responses = []
    ∧ (onClose s).isRunning = false
    ∧ alookup tok (onClose s).events = some true
    ∧ (completeCall (onClose s) msgId tok).1 = .error .keyFail
    ∧ (∀ (id' mid : String) (tok' : Nat), alookup id' s.pending = Option.none →
        alookup id' (onResponse s mid d).pending = Option.none
        ∧ alookup id' (completeCall s mid tok').2.pending = Option.none
        ∧ alookup id' (onClose s).pending = Option.none) := by
  have htokmem : tok ∈ s.pending.map Prod.snd :=
    List.mem_map_of_mem Prod.snd hmem
  have hset : alookup tok (onClose s).events = some true := by
    simp only [onClose]
    rw [foldl_esetTrue_mem _ _ _ htokmem, hev]
    rfl
  refine ⟨?_, rfl, rfl, rfl, hset, ?_, ?_⟩
  · intro s0 mid
    refine ⟨?_, ?_⟩
    · simp only [issueCall]
      exact alookup_aset_self ..
    · simp [issueCall, alookup]
  · simp only [completeCall, hset]
    rfl
  · intro id' mid tok' hnone
    refine ⟨?_, completeCall_pending_none s mid tok' id' hnone, ?_⟩
    · rw [onResponse_pending]
      exact hnone
    · rfl

/-- C4: for an inbound request (id and method present) handler lookup
tries the host-scoped table first and only then, when params carry a
truthy pluginId naming a registered plugin, that plugin's table; a found
handler's success is answered with a result frame, a raised exception
with an error frame of code -32603 carrying the message; with no handler
found an error frame of code -32601 is sent, no handler runs, the state
is untouched and nothing is raised locally (the dispatcher is a total
function). -/
theorem c4_dispatch_request
    (s : SDKState) (msgId : PyVal) (method : String) (params : PyVal)
    (hw : s.wsConnected = true) (hr : s.isRunning = true) :
    (∀ h : Handler,
        (alookup "host" s.pluginHandlers).bind (fun tbl => alookup method tbl)
          = some h →
        lookupRequestHandler s method params = some (h, "host"))
    ∧ (∀ (p : String) (tbl : List (String × Handler)) (h : Handler),
        (alookup "host" s.pluginHandlers).bind (fun tbl => alookup method tbl)
          = Option.none →
        pluginIdParam params = some (.str p) →
        (PyVal.str p).truthy = true →
        alookup p s.pluginHandlers = some tbl →
        alookup method tbl = some h →
        lookupRequestHandler s method params = some (h, p))
    ∧ (∀ (h : Handler) (t : String) (r : PyVal),
        lookupRequestHandler s method params = some (h, t) →
        h.run (observedIdentity h t) params = .ok r →
        (dispatchRequest s msgId method params).sent
          = some (.result msgId r))
    ∧ (∀ (h : Handler) (t : String) (e : String),
        lookupRequestHandler s method params = some (h, t) →
        h.run (observedIdentity h t) params = .error e →
        (dispatchRequest s msgId method params).sent
          = some (.rpcError msgId (-32603) e))
    ∧ (lookupRequestHandler s method params = Option.none →
        (dispatchRequest s msgId method params).sent
          = some (.rpcError msgId (-32601) ("Method not found: " ++ method))
        ∧ (dispatchRequest s msgId method params).ranAs = Option.none
        ∧ (dispatchRequest s msgId method params).state = s) := by
  refine ⟨?_, ?_, ?_, ?_, ?_⟩
  · intro h hh
    simp only [lookupRequestHandler, hh]
  · intro p tbl h hhost hpid htr htbl hm
    simp [lookupRequestHandler, hhost, hpid, htr, htbl, hm]
  · intro h t r hlk hok
    simp [dispatchRequest, hlk, hok, sendIfRunning, hw, hr]
  · intro h t e hlk hko
    simp [dispatchRequest, hlk, hko, sendIfRunning, hw, hr]
  · intro hlk
    simp [dispatchRequest, hlk, sendIfRunning, hw, hr]

theorem load_sysModules_spec (entries : List DirEntry) (h : HostState) (pid : String)
    (d : DirEntry) (code : ModuleCode) (hpid : pid ≠ "")
    (hdir : findPluginDir entries pid = some d) (hmain : d.mainPy = some code) :
    (handleLoadPlugin entries h (some pid)).host.sysModules
        = (match alookup (moduleNameFor pid) h.sysModules with
           | some _ => h.sysModules
           | Option.none => aset (moduleNameFor pid) h.nextModule h.sysModules)
    ∧ (handleLoadPlugin entries h (some pid)).host.nextModule
        = (match alookup (moduleNameFor pid) h.sysModules with
           | some _ => h.nextModule
           | Option.none => h.nextModule + 1) := by
  cases hm : alookup (moduleNameFor pid) h.sysModules with
  | some t =>
      cases hs : code.hasSetup with
      | true =>
          cases hrun : code.setupRun pid with
          | ok u => simp [handleLoadPlugin, hdir, hmain, hpid, hm, hs, hrun]
          | error e => simp [handleLoadPlugin, hdir, hmain, hpid, hm, hs, hrun]
      | false => simp [handleLoadPlugin, hdir, hmain, hpid, hm, hs]
  | none =>
      cases hs : code.hasSetup with
      | true =>
          cases hrun : code.setupRun pid with
          | ok u => simp [handleLoadPlugin, hdir, hmain, hpid, hm, hs, hrun]
          | error e => simp [handleLoadPlugin, hdir, hmain, hpid, hm, hs, hrun]
      | false => simp [handleLoadPlugin, hdir, hmain, hpid, hm, hs]

/-- C5: loading the same plugin id a second time reuses the same module
identity: the module name is the deterministic function moduleNameFor of
the id, the first load leaves a module object registered under it, and
the second load keeps exactly that object and allocates no new module
(the allocation counter is unchanged). -/
theorem c5_hot_reload_same_module
    (entries : List DirEntry) (h : HostState) (pid : String)
    (d : DirEntry) (code : ModuleCode) (hpid : pid ≠ "")
    (hdir : findPluginDir entries pid = some d) (hmain : d.mainPy = some code) :
    (alookup (moduleNameFor pid)
        (handleLoadPlugin entries h (some pid)).host.sysModules).isSome = true
    ∧ alookup (moduleNameFor pid)
        (handleLoadPlugin entries (handleLoadPlugin entries h (some pid)).host
          (some pid)).host.sysModules
      = alookup (moduleNameFor pid)
          (handleLoadPlugin entries h (some pid)).host.sysModules
    ∧ (handleLoadPlugin entries (handleLoadPlugin entries h (some pid)).host
          (some pid)).host.nextModule
      = (handleLoadPlugin entries h (some pid)).host.nextModule := by
  obtain ⟨h1sys, h1next⟩ := load_sysModules_spec entries h pid d code hpid hdir hmain
  obtain ⟨h2sys, h2next⟩ :=
    load_sysModules_spec entries (handleLoadPlugin entries h (some pid)).host
      pid d code hpid hdir hmain
  cases hm : alookup (moduleNameFor pid) h.sysModules with
  | some t =>
      rw [hm] at h1sys h1next
      have hl1 : alookup (moduleNameFor pid)
          (handleLoadPlugin entries h (some pid)).host.sysModules = some t := by
        rw [h1sys, hm]
      rw [hl1] at h2sys h2next
      exact ⟨by rw [hl1]; rfl, by rw [h2sys], by rw [h2next]⟩
  | none =>
      rw [hm] at h1sys h1next
      have hl1 : alookup (moduleNameFor pid)
          (handleLoadPlugin entries h (some pid)).host.sysModules
            = some h.nextModule := by
        rw [h1sys]
        exact alookup_aset_self ..
      rw [hl1] at h2sys h2next
      exact ⟨by rw [hl1]; rfl, by rw [h2sys], by rw [h2next]⟩

theorem scanStep_fst (acc : List (List (String × PyVal)) × List PyVal) (e : DirEntry) :
    (scanStep acc e).1 = acc.1
    ∨ ∃ m2, (scanStep acc e).1 = acc.1 ++ [m2]
        ∧ alookup "folderName" m2 = some (.str e.name) := by
  unfold scanStep
  by_cases h1 : (!e.isDir || e.name == "venv" || e.name == "__pycache__") = true
  · rw [if_pos h1]
    exact Or.inl rfl
  · rw [if_neg h1]
    cases e.manifest with
    | none => exact Or.inl rfl
    | some om =>
        cases om with
        | none => exact Or.inl rfl
        | some m =>
            cases hpid : effectiveId m e.name with
            | list xs => exact Or.inl (by simp [hpid])
            | dict fs => exact Or.inl (by simp [hpid])
            | null =>
                by_cases hmem : pyMemAtom .null acc.2 = true
                · exact Or.inl (by simp [hpid, hmem])
                · refine Or.inr ⟨aset "id" PyVal.null
                    (aset "folderName" (.str e.name) m), by simp [hpid, hmem], ?_⟩
                  rw [alookup_aset_ne _ _ (by decide), alookup_aset_self]
            | bool b =>
                by_cases hmem : pyMemAtom (.bool b) acc.2 = true
                · exact Or.inl (by simp [hpid, hmem])
                · refine Or.inr ⟨aset "id" (PyVal.bool b)
                    (aset "folderName" (.str e.name) m), by simp [hpid, hmem], ?_⟩
                  rw [alookup_aset_ne _ _ (by decide), alookup_aset_self]
            | int n =>
                by_cases hmem : pyMemAtom (.int n) acc.2 = true
                · exact Or.inl (by simp [hpid, hmem])
                · refine Or.inr ⟨aset "id" (PyVal.int n)
                    (aset "folderName" (.str e.name) m), by simp [hpid, hmem], ?_⟩
                  rw [alookup_aset_ne _ _ (by decide), alookup_aset_self]
            | str s =>
                by_cases hmem : pyMemAtom (.str s) acc.2 = true
                · exact Or.inl (by simp [hpid, hmem])
                · refine Or.inr ⟨aset "id" (PyVal.str s)
                    (aset "folderName" (.str e.name) m), by simp [hpid, hmem], ?_⟩
                  rw [alookup_aset_ne _ _ (by decide), alookup_aset_self]

theorem scan_folderName_aux (entries : List DirEntry)
    (acc : List (List (String × PyVal)) × List PyVal) :
    ∀ m ∈ (entries.foldl scanStep acc).1,
      m ∈ acc.1 ∨ ∃ e, e ∈ entries ∧ alookup "folderName" m = some (.str e.name) := by
  induction entries generalizing acc with
  | nil => exact fun m hm => Or.inl hm
  | cons e es ih =>
      intro m hm
      rcases ih (scanStep acc e) m hm with hin | ⟨e', he', hf⟩
      · rcases scanStep_fst acc e with hkeep | ⟨m2, happ, hf2⟩
        · rw [hkeep] at hin
          exact Or.inl hin
        · rw [happ] at hin
          rcases List.mem_append.mp hin with h2 | h2
          · exact Or.inl h2
          · have : m = m2 := by simpa using h2
            exact Or.inr ⟨e, List.mem_cons_self .., by rw [this]; exact hf2⟩
      · exact Or.inr ⟨e', List.mem_cons_of_mem _ he', hf⟩

/-- C6: discovery skips a later directory whose (effective) manifest id
was already seen — appending such an entry to the scan leaves the result
unchanged, so the first one scanned wins; every returned manifest
carries folderName equal to the name of a scanned directory; the
exporter scenario returns exactly one entry with id exporter and
folderName subtitle_exporter; and in the two-folder duplicate scenario
only the first folder's manifest is returned. -/
theorem c6_scan_duplicate_ids :
    (∀ (es : List DirEntry) (e : DirEntry) (m : List (String × PyVal)),
        e.manifest = some (some m) →
        pyMemAtom (effectiveId m e.name) (es.foldl scanStep ([], [])).2 = true →
        scanPlugins (es ++ [e]) = scanPlugins es)
    ∧ (∀ (entries : List DirEntry) (m : List (String × PyVal)),
        m ∈ scanPlugins entries →
        ∃ e, e ∈ entries ∧ alookup "folderName" m = some (.str e.name))
    ∧ scanPlugins entriesExporter
        = [[("id", .str "exporter"), ("folderName", .str "subtitle_exporter")]]
    ∧ scanPlugins entriesDup
        = [[("id", .str "dup"), ("name", .str "A"), ("folderName", .str "first_dir")]] := by
  refine ⟨?_, ?_, rfl, rfl⟩
  · intro es e m hman hmem
    simp only [scanPlugins, List.foldl_append, List.foldl_cons, List.foldl_nil]
    generalize hA : List.foldl scanStep ([], []) es = A at hmem ⊢
    unfold scanStep
    by_cases h1 : (!e.isDir || e.name == "venv" || e.name == "__pycache__") = true
    · rw [if_pos h1]
    · rw [if_neg h1, hman]
      cases hpid : effectiveId m e.name with
      | list xs => simp [hpid]
      | dict fs => simp [hpid]
      | null => rw [hpid] at hmem; simp [hpid, hmem]
      | bool b => rw [hpid] at hmem; simp [hpid, hmem]
      | int n => rw [hpid] at hmem; simp [hpid, hmem]
      | str s => rw [hpid] at hmem; simp [hpid, hmem]
  · intro entries m hm
    rcases scan_folderName_aux entries ([], []) m hm with hin | hex
    · simp at hin
    · exact hex

/-- C10: a manifest that parses but lacks an id field is not rejected:
its effective id defaults to the folder name, the entry is accepted with
id equal to folderName, and that defaulted id participates in duplicate
detection (a later folder explicitly declaring the same id is skipped). -/
theorem c10_missing_id_defaults_to_folder :
    (∀ (m : List (String × PyVal)) (folder : String),
        alookup "id" m = Option.none → effectiveId m folder = .str folder)
    ∧ (∀ (acc : List (List (String × PyVal)) × List PyVal) (e : DirEntry)
          (m : List (String × PyVal)),
        e.isDir = true → e.name ≠ "venv" → e.name ≠ "__pycache__" →
        e.manifest = some (some m) → alookup "id" m = Option.none →
        pyMemAtom (.str e.name) acc.2 = false →
        scanStep acc e
          = (acc.1 ++ [aset "id" (.str e.name) (aset "folderName" (.str e.name) m)],
             .str e.name :: acc.2))
    ∧ scanPlugins entriesNoId
        = [[("name", .str "Anon"), ("folderName", .str "anon_dir"),
            ("id", .str "anon_dir")]]
    ∧ scanPlugins (entriesNoId ++ entriesNoIdClash)
        = [[("name", .str "Anon"), ("folderName", .str "anon_dir"),
            ("id", .str "anon_dir")]] := by
  refine ⟨?_, ?_, rfl, rfl⟩
  · intro m folder hid
    simp [effectiveId, hid]
  · intro acc e m hd hn1 hn2 hman hid hmem
    unfold scanStep
    rw [hman]
    simp [hd, hn1, hn2, effectiveId, hid, hmem]

/-- C7: every failure of load_plugin — missing id parameter, no
directory resolving to the id, entry point main.py absent, setup
function absent, or setup raising — is returned as a structured error
dict rather than propagating; a successful load returns a status-ok
dict; and on every input the result is one of those two shapes and the
host's running flag is untouched (in particular, loading an unknown id
keeps the host running and yields the not-found error message). -/
theorem c7_load_errors_structured (entries : List DirEntry) (h : HostState) :
    (handleLoadPlugin entries h Option.none).result
        = .dict [("error", .str "Missing plugin id")]
    ∧ (∀ pid : String, pid ≠ "" → findPluginDir entries pid = Option.none →
        (handleLoadPlugin entries h (some pid)).result
          = .dict [("error",
              .str ("Plugin directory not found for ID: " ++ pid))])
    ∧ (∀ (pid : String) (d : DirEntry), pid ≠ "" →
        findPluginDir entries pid = some d → d.mainPy = Option.none →
        (handleLoadPlugin entries h (some pid)).result
          = .dict [("error",
              .str ("Plugin entry point \x27main.py\x27 not found in: " ++ d.name))])
    ∧ (∀ (pid : String) (d : DirEntry) (code : ModuleCode), pid ≠ "" →
        findPluginDir entries pid = some d → d.mainPy = some code →
        code.hasSetup = false →
        (handleLoadPlugin entries h (some pid)).result
          = .dict [("error",
              .str ("Plugin " ++ pid ++ " has no \x27setup(api)\x27 function."))])
    ∧ (∀ (pid : String) (d : DirEntry) (code : ModuleCode) (e : String), pid ≠ "" →
        findPluginDir entries pid = some d → d.mainPy = some code →
        code.hasSetup = true → code.setupRun pid = .error e →
        (handleLoadPlugin entries h (some pid)).result = .dict [("error", .str e)])
    ∧ (∀ (pid : String) (d : DirEntry) (code : ModuleCode), pid ≠ "" →
        findPluginDir entries pid = some d → d.mainPy = some code →
        code.hasSetup = true → code.setupRun pid = .ok () →
        (handleLoadPlugin entries h (some pid)).result
          = .dict [("status", .str "ok")])
    ∧ (∀ p : Option String,
        (handleLoadPlugin entries h p).host.sdk.isRunning = h.sdk.isRunning
        ∧ ((∃ msg : String, (handleLoadPlugin entries h p).result
              = .dict [("error", .str msg)])
           ∨ (handleLoadPlugin entries h p).result
              = .dict [("status", .str "ok")])) := by
  refine ⟨rfl, ?_, ?_, ?_, ?_, ?_, ?_⟩
  · intro pid hp hfind
    simp [handleLoadPlugin, hp, hfind]
  · intro pid d hp hfind hmain
    simp [handleLoadPlugin, hp, hfind, hmain]
  · intro pid d code hp hfind hmain hs
    cases hm : alookup (moduleNameFor pid) h.sysModules with
    | some t => simp [handleLoadPlugin, hp, hfind, hmain, hm, hs]
    | none => simp [handleLoadPlugin, hp, hfind, hmain, hm, hs]
  · intro pid d code e hp hfind hmain hs hrun
    cases hm : alookup (moduleNameFor pid) h.sysModules with
    | some t => simp [handleLoadPlugin, hp, hfind, hmain, hm, hs, hrun]
    | none => simp [handleLoadPlugin, hp, hfind, hmain, hm, hs, hrun]
  · intro pid d code hp hfind hmain hs hrun
    cases hm : alookup (moduleNameFor pid) h.sysModules with
    | some t => simp [handleLoadPlugin, hp, hfind, hmain, hm, hs, hrun]
    | none => simp [handleLoadPlugin, hp, hfind, hmain, hm, hs, hrun]
  · intro p
    cases p with
    | none => exact ⟨rfl, Or.inl ⟨"Missing plugin id", rfl⟩⟩
    | some pid =>
        by_cases hp : pid = ""
        · exact ⟨by simp [handleLoadPlugin, hp], Or.inl ⟨"Missing plugin id",
            by simp [handleLoadPlugin, hp]⟩⟩
        · cases hfind : findPluginDir entries pid with
          | none =>
              exact ⟨by simp [handleLoadPlugin, hp, hfind],
                Or.inl ⟨"Plugin directory not found for ID: " ++ pid,
                  by simp [handleLoadPlugin, hp, hfind]⟩⟩
          | some d =>
              cases hmain : d.mainPy with
              | none =>
                  exact ⟨by simp [handleLoadPlugin, hp, hfind, hmain],
                    Or.inl ⟨"Plugin entry point \x27main.py\x27 not found in: "
                        ++ d.name,
                      by simp [handleLoadPlugin, hp, hfind, hmain]⟩⟩
              | some code =>
                  cases hm : alookup (moduleNameFor pid) h.sysModules with
                  | some t =>
                      cases hs : code.hasSetup with
                      | false =>
                          exact ⟨by simp [handleLoadPlugin, hp, hfind, hmain, hm, hs],
                            Or.inl ⟨"Plugin " ++ pid
                                ++ " has no \x27setup(api)\x27 function.",
                              by simp [handleLoadPlugin, hp, hfind, hmain, hm, hs]⟩⟩
                      | true =>
                          cases hrun : code.setupRun pid with
                          | ok u =>
                              exact ⟨by simp [handleLoadPlugin, hp, hfind, hmain,
                                  hm, hs, hrun],
                                Or.inr (by simp [handleLoadPlugin, hp, hfind, hmain,
                                  hm, hs, hrun])⟩
                          | error e2 =>
                              exact ⟨by simp [handleLoadPlugin, hp, hfind, hmain,
                                  hm, hs, hrun],
                                Or.inl ⟨e2, by simp [handleLoadPlugin, hp, hfind,
                                  hmain, hm, hs, hrun]⟩⟩
                  | none =>
                      cases hs : code.hasSetup with
                      | false =>
                          exact ⟨by simp [handleLoadPlugin, hp, hfind, hmain, hm, hs],
                            Or.inl ⟨"Plugin " ++ pid
                                ++ " has no \x27setup(api)\x27 function.",
                              by simp [handleLoadPlugin, hp, hfind, hmain, hm, hs]⟩⟩
                      | true =>
                          cases hrun : code.setupRun pid with
                          | ok u =>
                              exact ⟨by simp [handleLoadPlugin, hp, hfind, hmain,
                                  hm, hs, hrun],
                                Or.inr (by simp [handleLoadPlugin, hp, hfind, hmain,
                                  hm, hs, hrun])⟩
                          | error e2 =>
                              exact ⟨by simp [handleLoadPlugin, hp, hfind, hmain,
                                  hm, hs, hrun],
                                Or.inl ⟨e2, by simp [handleLoadPlugin, hp, hfind,
                                  hmain, hm, hs, hrun]⟩⟩

/-- C8: unloading a loaded plugin answers status ok, invokes every
registered teardown callback (the outcome list has one entry per
callback, so a raising callback blocks neither the remaining callbacks
nor the rest of unload), removes the plugin's whole handler table, its
extension-service entry and its record; afterwards a notification
targeting that plugin id runs no handler and leaves the SDK state
unchanged (dropped, not errored).  Unloading an id that is not loaded
answers status not_found and changes nothing. -/
theorem c8_unload_teardown_and_cleanup
    (h : HostState) (pid : String) (c : Ctx)
    (hc : alookup pid h.plugins = some c)
    (hcid : c.pluginId = pid) :
    (handleUnloadPlugin h (some pid)).1 = .dict [("status", .str "ok")]
    ∧ (handleUnloadPlugin h (some pid)).2.2.length = c.teardownCallbacks.length
    ∧ alookup pid (handleUnloadPlugin h (some pid)).2.1.sdk.pluginHandlers
        = Option.none
    ∧ alookup pid (handleUnloadPlugin h (some pid)).2.1.sdk.extServices
        = Option.none
    ∧ alookup pid (handleUnloadPlugin h (some pid)).2.1.plugins = Option.none
    ∧ (∀ (ev : String) (ps : PyVal),
        pluginIdParam ps = some (.str pid) → (PyVal.str pid).truthy = true →
        onNotification (handleUnloadPlugin h (some pid)).2.1.sdk ev ps
          = ([], (handleUnloadPlugin h (some pid)).2.1.sdk))
    ∧ (∀ pid' : String, alookup pid' h.plugins = Option.none →
        handleUnloadPlugin h (some pid')
          = (.dict [("status", .str "not_found")], h, [])) := by
  have hhandlers : alookup pid
      (handleUnloadPlugin h (some pid)).2.1.sdk.pluginHandlers = Option.none := by
    simp only [handleUnloadPlugin, hc, triggerTeardown]
    exact alookup_adel_self ..
  refine ⟨?_, ?_, hhandlers, ?_, ?_, ?_, ?_⟩
  · simp [handleUnloadPlugin, hc]
  · simp [handleUnloadPlugin, hc, triggerTeardown]
  · simp only [handleUnloadPlugin, hc, triggerTeardown]
    rw [hcid]
    exact alookup_adel_self ..
  · simp only [handleUnloadPlugin, hc]
    exact alookup_adel_self ..
  · intro ev ps hps htr
    simp only [onNotification, hps, htr, if_pos, hhandlers]
    simp
  · intro pid' hnone
    simp [handleUnloadPlugin, hnone]

/-- C9 counterexample: a synchronous handler registered by plugin "plug"
for method "work" (a handler whose body returns current_plugin_id.get())
is dispatched as plug's handler, yet its body observes "host", not
"plug": the wrapper's contextvar assignment does not propagate into the
run_in_executor worker thread, so this unit of plugin execution never
runs with the identity slot holding the plugin's id.  The same happens
for a notification delivered to the same handler. -/
theorem c9_sync_handler_counterexample :
    (dispatchRequest sdkSyncPlug (.str "1") "work"
        (.dict [("pluginId", .str "plug")])).ranAs = some "plug"
    ∧ (dispatchRequest sdkSyncPlug (.str "1") "work"
        (.dict [("pluginId", .str "plug")])).observedId = some "host"
    ∧ (dispatchRequest sdkSyncPlug (.str "1") "work"
        (.dict [("pluginId", .str "plug")])).sent
        = some (.result (.str "1") (.str "host"))
    ∧ (dispatchRequest sdkSyncPlug (.str "1") "work"
        (.dict [("pluginId", .str "plug")])).observedId ≠ some "plug"
    ∧ (dispatchEvent sdkSyncPlug "plug" "work" .null).observedId = some "host" :=
  ⟨rfl, rfl, rfl, by decide, rfl⟩

/-- C9 (amended): for every unit of execution on behalf of a plugin —
inbound request handler, notification handler, plugin load/setup — the
dispatching wrapper sets the per-execution identity slot to that
plugin's id before invoking the plugin code and restores it to its
previous value when the unit exits, on every path including raising
plugin code; a coroutine handler and plugin load/setup observe that
plugin's id, but a synchronous handler is offloaded to an executor
thread whose context does not inherit the wrapper's assignment and
observes the context variable's default "host" instead (the equations
hold for arbitrary handler and setup behaviour). -/
theorem c9_identity_set_and_restored
    (s : SDKState) (msgId : PyVal) (method : String) (params : PyVal)
    (pid ev : String) (entries : List DirEntry) (h : HostState)
    (p : Option String) :
    (dispatchRequest s msgId method params).state.currentPluginId
        = s.currentPluginId
    ∧ (dispatchRequest s msgId method params).observedId
        = (lookupRequestHandler s method params).map
            (fun ht => observedIdentity ht.1 ht.2)
    ∧ (dispatchEvent s pid ev params).state.currentPluginId = s.currentPluginId
    ∧ (dispatchEvent s pid ev params).observedId
        = (alookup ev ((alookup pid s.pluginHandlers).getD [])).map
            (fun hh => observedIdentity hh pid)
    ∧ (handleLoadPlugin entries h p).host.sdk.currentPluginId
        = h.sdk.currentPluginId
    ∧ ((handleLoadPlugin entries h p).setupRanAs = Option.none
        ∨ (handleLoadPlugin entries h p).setupRanAs = p) := by
  refine ⟨?_, ?_, ?_, ?_, ?_, ?_⟩
  · cases hlk : lookupRequestHandler s method params with
    | some ht => simp [dispatchRequest, hlk]
    | none => simp [dispatchRequest, hlk]
  · cases hlk : lookupRequestHandler s method params with
    | some ht => simp [dispatchRequest, hlk]
    | none => simp [dispatchRequest, hlk]
  · cases hev : alookup ev ((alookup pid s.pluginHandlers).getD []) with
    | some hh => simp [dispatchEvent, hev]
    | none => simp [dispatchEvent, hev]
  · cases hev : alookup ev ((alookup pid s.pluginHandlers).getD []) with
    | some hh => simp [dispatchEvent, hev]
    | none => simp [dispatchEvent, hev]
  · cases p with
    | none => rfl
    | some pid' =>
        by_cases hp : pid' = ""
        · simp [handleLoadPlugin, hp]
        · simp [handleLoadPlugin, hp]
  · cases p with
    | none => exact Or.inl rfl
    | some pid' =>
        by_cases hp : pid' = ""
        · exact Or.inl (by simp [handleLoadPlugin, hp])
        · cases hfind : findPluginDir entries pid' with
          | none => exact Or.inl (by simp [handleLoadPlugin, hp, hfind])
          | some d =>
              cases hmain : d.mainPy with
              | none => exact Or.inl (by simp [handleLoadPlugin, hp, hfind, hmain])
              | some code =>
                  cases hm : alookup (moduleNameFor pid') h.sysModules with
                  | some t =>
                      cases hs : code.hasSetup with
                      | false =>
                          exact Or.inl
                            (by simp [handleLoadPlugin, hp, hfind, hmain, hm, hs])
                      | true =>
                          cases hrun : code.setupRun pid' with
                          | ok u =>
                              exact Or.inr (by simp [handleLoadPlugin, hp, hfind,
                                hmain, hm, hs, hrun])
                          | error e2 =>
                              exact Or.inr (by simp [handleLoadPlugin, hp, hfind,
                                hmain, hm, hs, hrun])
                  | none =>
                      cases hs : code.hasSetup with
                      | false =>
                          exact Or.inl
                            (by simp [handleLoadPlugin, hp, hfind, hmain, hm, hs])
                      | true =>
                          cases hrun : code.setupRun pid' with
                          | ok u =>
                              exact Or.inr (by simp [handleLoadPlugin, hp, hfind,
                                hmain, hm, hs, hrun])
                          | error e2 =>
                              exact Or.inr (by simp [handleLoadPlugin, hp, hfind,
                                hmain, hm, hs, hrun])

/-! Witnesses: concrete instantiations of the claim theorems. -/

/-- C1 witness: on a fresh SDK, calls "a" and "b" answered in reverse
order; completing "a" yields its own result 1. -/
theorem c1_response_correlation_witness :
    (completeCall (onResponse (onResponse (issueCall (issueCall initSDK "a").1 "b").1
        "b" (respOk (.int 2))) "a" (respOk (.int 1))) "a"
        (issueCall initSDK "a").2).1 = .ok (.int 1) :=
  ((c1_response_correlation initSDK "a" "b" (.int 1) (.int 2)
      (by decide) rfl rfl rfl rfl rfl rfl).2).1

/-- C3 witness: after a close, the blocked caller of pending request "a"
unblocks with a failure. -/
theorem c3_pending_lifecycle_witness :
    (completeCall (onClose sdkOnePending) "a" 0).1 = .error .keyFail :=
  (c3_pending_lifecycle sdkOnePending "a" 0 false (respOk (.int 1))
      (by decide) rfl).2.2.2.2.2.1

/-- C4 witness: the host-scoped handler for "ping" answers with a result
frame. -/
theorem c4_dispatch_request_witness :
    (dispatchRequest sdkWithHandlers (.str "1") "ping" .null).sent
      = some (.result (.str "1") .null) :=
  ((c4_dispatch_request sdkWithHandlers (.str "1") "ping" .null rfl rfl).2.2.1)
    hEcho "host" .null rfl rfl

/-- C5 witness: after loading "exp" once, its module object is
registered under its deterministic module name. -/
theorem c5_hot_reload_witness :
    (alookup (moduleNameFor "exp")
        (handleLoadPlugin entriesExp initHost (some "exp")).host.sysModules).isSome
      = true :=
  (c5_hot_reload_same_module entriesExp initHost "exp"
      { name := "expdir", isDir := true,
        manifest := some (some [("id", .str "exp")]), mainPy := some okModule }
      okModule (by decide) rfl rfl).1

/-- C6 witness: the manifest returned for the exporter scenario carries
the folderName of a scanned directory. -/
theorem c6_scan_duplicate_ids_witness :
    ∃ e, e ∈ entriesExporter
      ∧ alookup "folderName"
          [("id", PyVal.str "exporter"), ("folderName", PyVal.str "subtitle_exporter")]
        = some (.str e.name) :=
  (c6_scan_duplicate_ids.2.1) entriesExporter
    [("id", .str "exporter"), ("folderName", .str "subtitle_exporter")]
    (List.mem_cons_self ..)

/-- C7 witness: loading the unknown id "ghost" returns the structured
not-found error. -/
theorem c7_load_errors_witness :
    (handleLoadPlugin [] initHost (some "ghost")).result
      = .dict [("error", .str ("Plugin directory not found for ID: " ++ "ghost"))] :=
  (c7_load_errors_structured [] initHost).2.1 "ghost" (by decide) rfl

/-- C8 witness: unloading the loaded plugin "plug" answers status ok. -/
theorem c8_unload_witness :
    (handleUnloadPlugin hostWithPlug (some "plug")).1
      = .dict [("status", .str "ok")] :=
  (c8_unload_teardown_and_cleanup hostWithPlug "plug" ctxPlug rfl rfl).1

/-- C10 witness: a manifest without an id field gets the folder name as
its effective id. -/
theorem c10_missing_id_witness :
    effectiveId [("name", PyVal.str "Anon")] "anon_dir" = .str "anon_dir" :=
  (c10_missing_id_defaults_to_folder.1) [("name", .str "Anon")] "anon_dir" rfl

end JianyingPlugins
